import Mathlib

set_option maxRecDepth 8000

/-!
# Verification of the JSON-schema → SQL DDL column-list compiler

Shallow embedding of the schema-compilation core of the repository
(`src/lib/utils.ts`): the field-name sanitizer `validatedFieldName`,
the recursive type mapper `parseSqlSchemaFromObject`, and the
loader/assembler `readSqlSchemaFromJson`.

The TypeScript code operates on dynamically typed values produced by
`JSON.parse`. We model such values with the inductive type `Json`
below; object fields are an ordered association list, mirroring the
insertion-ordered key iteration the source relies on.
-/

/-- A parsed JSON value, as produced by `JSON.parse` in the source.
Numbers are modelled as integers: the numeric values occurring in
schema documents (`precision`, `scale`) are integral, and JavaScript
stringifies an integral double without a fractional part. -/
inductive Json where
  | null
  | bool (b : Bool)
  | num (n : Int)
  | str (s : String)
  | arr (items : List Json)
  | obj (fields : List (String × Json))

/-- Property lookup `data[key]` on a parsed JSON value: association-list
lookup for objects; `undefined` (here `none`) for any other value. -/
def Json.get : Json → String → Option Json
  | .obj fields, key => fields.lookup key
  | _, _ => none

/-- `data[key]` when the source additionally checks
`typeof data[key] === "string"`: the string value, if the property
exists and is a string. -/
def Json.getStr (j : Json) (key : String) : Option String :=
  match j.get key with
  | some (.str s) => some s
  | _ => none

/-- The ordered `(key, value)` pairs a `for (const key in data)` loop
visits on a parsed JSON object; other JSON values have no enumerable
own string properties in the documents concerned. -/
def Json.entries : Json → List (String × Json)
  | .obj fields => fields
  | _ => []

/-- Entries of an optional object, as visited by
`for (const key in data["properties"])`: iterating over `undefined`
performs no iterations in JavaScript. -/
def optEntries : Option Json → List (String × Json)
  | some j => j.entries
  | none => []

/-- `` `${Number(x)}` `` for a property that may be absent:
JavaScript's numeric coercion and stringification for the values
occurring in schema documents (`Number(undefined)` is `NaN`). -/
def jsNumberAsString : Option Json → String
  | some (.num n) => toString n
  | some (.bool true) => "1"
  | some (.bool false) => "0"
  | some .null => "0"
  | _ => "NaN"

/-- Keywords that are reserved for use in AWS Athena DDL queries
(`RESERVED_KEYWORDS` in `src/lib/utils.ts`). -/
def RESERVED_KEYWORDS : List String := [
    "all", "alter", "and", "array", "as", "authorization", "between", "bigint",
    "binary", "boolean", "both", "by", "case", "cashe", "cast", "char", "column",
    "conf", "constraint", "commit", "create", "cross", "cube", "current",
    "current_date", "current_timestamp", "cursor", "database", "date",
    "dayofweek", "decimal", "delete", "describe", "distinct", "double", "drop",
    "else", "end", "exchange", "exists", "extended", "external", "extract",
    "false", "fetch", "float", "floor", "following", "for", "foreign", "from",
    "full", "function", "grant", "group", "grouping", "having", "if", "import",
    "in", "inner", "insert", "int", "integer", "intersect", "interval", "into",
    "is", "join", "lateral", "left", "less", "like", "local", "macro", "map",
    "more", "none", "not", "null", "numeric", "of", "on", "only", "or", "order",
    "out", "outer", "over", "partialscan", "partition", "percent", "preceding",
    "precision", "preserve", "primary", "procedure", "range", "reads", "reduce",
    "regexp", "references", "revoke", "right", "rlike", "rollback", "rollup",
    "row", "rows", "select", "set", "smallint", "start", "table", "tablesample",
    "then", "time", "timestamp", "to", "transform", "trigger", "true", "truncate",
    "unbounded", "union", "uniquejoin", "update", "user", "using", "utc_timestamp",
    "values", "varchar", "views", "when", "where", "window", "with"]

/-- A character the sanitizer keeps: the class `[a-zA-Z0-9_-]` of the
regular expression in `validatedFieldName`. -/
def isLegalChar (c : Char) : Bool :=
  (('a' ≤ c && c ≤ 'z') || ('A' ≤ c && c ≤ 'Z') || ('0' ≤ c && c ≤ '9')
    || c == '_' || c == '-')

/-- `fieldName.replace(/[^a-zA-Z0-9_-]/g, "")`: drop every character
outside the legal class. -/
def stripIllegal (s : String) : String :=
  String.mk (s.data.filter isLegalChar)

/-- `fieldName.toLowerCase()`, character by character (the identifiers
concerned are ASCII, where JavaScript lowercasing is exactly the
per-character ASCII mapping). -/
def toLowerString (s : String) : String :=
  String.mk (s.data.map Char.toLower)

/-- `validatedFieldName` from `src/lib/utils.ts` (lines 86–95):
empty names pass through; reserved names (checked case-insensitively
against the original name) are stripped and backtick-quoted; all other
names are stripped. -/
def validatedFieldName (fieldName : String) : String :=
  if fieldName.length = 0 then
    ""
  else if RESERVED_KEYWORDS.contains (toLowerString fieldName) then
    "`" ++ stripIllegal fieldName ++ "`"
  else
    stripIllegal fieldName

/-- The failure conditions of the compiler. `unsupportedType` and
`unknownType` model the two explicit `throw new Error(...)` sites;
`typeError` models the JavaScript `TypeError` raised by a property
access on `undefined` (malformed composite nodes). -/
inductive ParseError where
  | unsupportedType (t : String)
  | unknownType (t : String)
  | typeError (msg : String)
deriving Repr, DecidableEq

deriving instance DecidableEq for Except

theorem Json.sizeOf_pos (j : Json) : 0 < sizeOf j := by
  cases j <;> simp_arith

theorem sizeOf_lookup {fields : List (String × Json)} {key : String} {v : Json}
    (h : fields.lookup key = some v) : sizeOf v < sizeOf fields := by
  induction fields with
  | nil => simp [List.lookup] at h
  | cons p rest ih =>
    obtain ⟨k', v'⟩ := p
    rw [List.lookup] at h
    by_cases hk : key == k'
    · simp [hk] at h
      subst h
      simp_arith
    · simp [hk] at h
      have := ih h
      simp_arith
      omega

theorem Json.sizeOf_get {j v : Json} {key : String}
    (h : j.get key = some v) : sizeOf v < sizeOf j := by
  cases j <;> simp [Json.get] at h
  case obj fields =>
    have := sizeOf_lookup h
    simp_arith
    omega

theorem listSizeOf_pos {α : Type} [SizeOf α] (l : List α) : 0 < sizeOf l := by
  cases l <;> simp_arith

theorem optSizeOf_pos (o : Option Json) : 0 < sizeOf o := by
  cases o <;> simp_arith

theorem Json.sizeOf_entries_le (j : Json) : sizeOf j.entries ≤ sizeOf j := by
  cases j <;> simp_arith [Json.entries]

theorem sizeOf_optEntries_get (j : Json) (key : String) :
    sizeOf (optEntries (j.get key)) ≤ sizeOf j := by
  match h : j.get key with
  | some p =>
    have h1 := Json.sizeOf_entries_le p
    have h2 := Json.sizeOf_get h
    simp [optEntries]
    omega
  | none =>
    simp [optEntries]
    have := Json.sizeOf_pos j
    omega

theorem Json.sizeOf_entries_head {j : Json} {k : String} {v : Json}
    {tl : List (String × Json)} (h : j.entries = (k, v) :: tl) :
    sizeOf v < sizeOf j := by
  cases j <;> simp [Json.entries] at h
  case obj fields =>
    subst h
    simp_arith

mutual

/-- `parseSqlSchemaFromObject` from `src/lib/utils.ts` (lines 161–213):
one recursive pass turning a schema node into its SQL type string.
A node without a string `type` keyword either unwraps its `properties`
(keeping the overlay) or is an implicit grouping whose entries are
rendered as `name type` pairs inside `struct<...>`, consulting the
overlay for each direct child; a node with a `type` keyword dispatches
on the keyword, and every recursive call into a child passes no
overlay, exactly as the source omits the `mapping` argument there. -/
def parseSqlSchemaFromObject (data : Json) (mapping : Option Json) :
    Except ParseError String :=
  match data.getStr "type" with
  | none =>
    match hp : data.get "properties" with
    | some props => parseSqlSchemaFromObject props mapping
    | none => do
        let arr ← parseGroupEntries data.entries mapping
        pure ("struct<" ++ String.intercalate ", " arr ++ ">")
  | some t =>
    if t = "null" then throw (.unsupportedType t)
    else if t = "string" then pure "string"
    else if t = "boolean" then pure "boolean"
    else if t = "integer" then pure "int"
    else if t = "number" then pure "float"
    else if t = "array" then
      match hi : data.get "items" with
      | some items => do
          let inner ← parseSqlSchemaFromObject items none
          pure ("array<" ++ inner ++ ">")
      | none => throw (.typeError "cannot read property of undefined items")
    else if t = "object" then do
        let arr ← parseObjectEntries (optEntries (data.get "properties"))
        pure ("struct<" ++ String.intercalate ", " arr ++ ">")
    else if t = "float" then pure "float"
    else if t = "date" then pure "date"
    else if t = "datetime" then pure "timestamp"
    else if t = "timestamp" then pure "bigint"
    else if t = "long" then pure "bigint"
    else if t = "decimal" then
      match hd : data.get "properties" with
      | some props =>
          pure ("decimal(" ++ jsNumberAsString (props.get "precision") ++ ","
            ++ jsNumberAsString (props.get "scale") ++ ")")
      | none => throw (.typeError "cannot read property of undefined properties")
    else if t = "map" then
      match hm : data.get "properties" with
      | some props =>
        match hk : props.get "key", hv : props.get "value" with
        | some k, some v => do
            let ks ← parseSqlSchemaFromObject k none
            let vs ← parseSqlSchemaFromObject v none
            pure ("map<" ++ ks ++ ", " ++ vs ++ ">")
        | _, _ => throw (.typeError "cannot read property of undefined key value")
      | none => throw (.typeError "cannot read property of undefined properties")
    else throw (.unknownType t)
termination_by sizeOf data + sizeOf mapping + 1
decreasing_by
  all_goals try have a1 := Json.sizeOf_get hp
  all_goals try have a2 := Json.sizeOf_get hi
  all_goals try have a3 := Json.sizeOf_get hm
  all_goals try have a4 := Json.sizeOf_get hk
  all_goals try have a5 := Json.sizeOf_get hv
  all_goals try have a6 := Json.sizeOf_entries_le data
  all_goals try have a7 := sizeOf_optEntries_get data "properties"
  all_goals try have a8 := Json.sizeOf_pos data
  all_goals try have a9 := optSizeOf_pos mapping
  all_goals try simp_arith
  all_goals try omega

/-- The `for (const key in data)` loop of the implicit-grouping branch
(lines 166–175): each direct child is first looked up in the overlay;
on a hit, the overlay entry's sole inner key becomes the field name and
its sole inner value the subtree; either way the subtree is parsed with
no overlay and rendered as `name type`. -/
def parseGroupEntries (l : List (String × Json)) (mapping : Option Json) :
    Except ParseError (List String) :=
  match l with
  | [] => pure []
  | (key, v) :: rest =>
    match mapping with
    | some m =>
      match hm : m.get key with
      | some repl =>
        match hr : repl.entries with
        | (newKey, newVal) :: _ => do
            let t ← parseSqlSchemaFromObject newVal none
            let restArr ← parseGroupEntries rest (some m)
            pure ((validatedFieldName newKey ++ " " ++ t) :: restArr)
        | [] => throw (.typeError "cannot read property of undefined")
      | none => do
          let t ← parseSqlSchemaFromObject v none
          let restArr ← parseGroupEntries rest (some m)
          pure ((validatedFieldName key ++ " " ++ t) :: restArr)
    | none => do
        let t ← parseSqlSchemaFromObject v none
        let restArr ← parseGroupEntries rest none
        pure ((validatedFieldName key ++ " " ++ t) :: restArr)
termination_by sizeOf l + sizeOf mapping
decreasing_by
  all_goals try have a1 := Json.sizeOf_get hm
  all_goals try have a2 := Json.sizeOf_entries_head hr
  all_goals try simp_arith
  all_goals try omega

/-- The `for (const key in data["properties"])` loop of the explicit
`object` branch (lines 190–193): fields render as `name: type`, with
no overlay consulted. -/
def parseObjectEntries (l : List (String × Json)) :
    Except ParseError (List String) :=
  match l with
  | [] => pure []
  | (key, v) :: rest => do
      let t ← parseSqlSchemaFromObject v none
      let restArr ← parseObjectEntries rest
      pure ((validatedFieldName key ++ ": " ++ t) :: restArr)
termination_by sizeOf l + 1
decreasing_by
  all_goals try simp_arith
  all_goals try omega

end

/-- `result.startsWith(prefixStr)`, computed on the character lists. -/
def strStartsWith (s p : String) : Bool :=
  p.data.isPrefixOf s.data

/-- `result.endsWith(suffixStr)`, computed on the character lists. -/
def strEndsWith (s p : String) : Bool :=
  p.data.isSuffixOf s.data

/-- `readSqlSchemaFromJson` from `src/lib/utils.ts` (lines 148–159),
with the file read and `JSON.parse` already performed: compile the
document, then strip a `struct<`/`>` wrapper
(`result.substring(7, result.length - 1)`) from the result. -/
def readSqlSchemaFromJson (data : Json) (mapping : Option Json) :
    Except ParseError String := do
  let result ← parseSqlSchemaFromObject data mapping
  if strStartsWith result "struct<" && strEndsWith result ">" then
    pure ((result.drop 7).dropRight 1)
  else
    pure result

/-! ## Relating the compiled equations to usable rewriting steps -/

theorem exmap_ok {α β : Type} (f : α → β) (a : α) :
    (f <$> (Except.ok a : Except ParseError α)) = Except.ok (f a) := rfl

theorem exmap_error {α β : Type} (f : α → β) (e : ParseError) :
    (f <$> (Except.error e : Except ParseError α)) = Except.error e := rfl

theorem exbind_ok {α β : Type} (f : α → Except ParseError β) (a : α) :
    ((Except.ok a : Except ParseError α) >>= f) = f a := rfl

theorem exbind_error {α β : Type} (f : α → Except ParseError β) (e : ParseError) :
    ((Except.error e : Except ParseError α) >>= f) = Except.error e := rfl

theorem parse_group_props {data props : Json} (mapping : Option Json)
    (h : data.getStr "type" = none) (h2 : data.get "properties" = some props) :
    parseSqlSchemaFromObject data mapping = parseSqlSchemaFromObject props mapping := by
  rw [parseSqlSchemaFromObject.eq_def, h]
  dsimp only
  split <;> simp_all

theorem parse_group {data : Json} (mapping : Option Json)
    (h : data.getStr "type" = none) (h2 : data.get "properties" = none) :
    parseSqlSchemaFromObject data mapping =
      (fun arr => "struct<" ++ String.intercalate ", " arr ++ ">") <$>
        parseGroupEntries data.entries mapping := by
  rw [parseSqlSchemaFromObject.eq_def, h]
  dsimp only
  split <;> simp_all

theorem parse_null {data : Json} (mapping : Option Json)
    (h : data.getStr "type" = some "null") :
    parseSqlSchemaFromObject data mapping = .error (.unsupportedType "null") := by
  rw [parseSqlSchemaFromObject.eq_def, h]
  rfl

theorem parse_str {data : Json} (mapping : Option Json)
    (h : data.getStr "type" = some "string") :
    parseSqlSchemaFromObject data mapping = .ok "string" := by
  rw [parseSqlSchemaFromObject.eq_def, h]
  rfl

theorem parse_boolean {data : Json} (mapping : Option Json)
    (h : data.getStr "type" = some "boolean") :
    parseSqlSchemaFromObject data mapping = .ok "boolean" := by
  rw [parseSqlSchemaFromObject.eq_def, h]
  rfl

theorem parse_integer {data : Json} (mapping : Option Json)
    (h : data.getStr "type" = some "integer") :
    parseSqlSchemaFromObject data mapping = .ok "int" := by
  rw [parseSqlSchemaFromObject.eq_def, h]
  rfl

theorem parse_number {data : Json} (mapping : Option Json)
    (h : data.getStr "type" = some "number") :
    parseSqlSchemaFromObject data mapping = .ok "float" := by
  rw [parseSqlSchemaFromObject.eq_def, h]
  rfl

theorem parse_float {data : Json} (mapping : Option Json)
    (h : data.getStr "type" = some "float") :
    parseSqlSchemaFromObject data mapping = .ok "float" := by
  rw [parseSqlSchemaFromObject.eq_def, h]
  rfl

theorem parse_date {data : Json} (mapping : Option Json)
    (h : data.getStr "type" = some "date") :
    parseSqlSchemaFromObject data mapping = .ok "date" := by
  rw [parseSqlSchemaFromObject.eq_def, h]
  rfl

theorem parse_datetime {data : Json} (mapping : Option Json)
    (h : data.getStr "type" = some "datetime") :
    parseSqlSchemaFromObject data mapping = .ok "timestamp" := by
  rw [parseSqlSchemaFromObject.eq_def, h]
  rfl

theorem parse_timestamp {data : Json} (mapping : Option Json)
    (h : data.getStr "type" = some "timestamp") :
    parseSqlSchemaFromObject data mapping = .ok "bigint" := by
  rw [parseSqlSchemaFromObject.eq_def, h]
  rfl

theorem parse_long {data : Json} (mapping : Option Json)
    (h : data.getStr "type" = some "long") :
    parseSqlSchemaFromObject data mapping = .ok "bigint" := by
  rw [parseSqlSchemaFromObject.eq_def, h]
  rfl

theorem parse_array {data items : Json} (mapping : Option Json)
    (h : data.getStr "type" = some "array") (h2 : data.get "items" = some items) :
    parseSqlSchemaFromObject data mapping =
      (fun inner => "array<" ++ inner ++ ">") <$> parseSqlSchemaFromObject items none := by
  rw [parseSqlSchemaFromObject.eq_def, h]
  simp only [String.reduceEq, reduceIte]
  split
  · rename_i items' heq
    rw [h2] at heq
    injection heq with he
    subst he
    rfl
  · rename_i heq
    rw [h2] at heq
    exact Option.noConfusion heq

theorem parse_object {data : Json} (mapping : Option Json)
    (h : data.getStr "type" = some "object") :
    parseSqlSchemaFromObject data mapping =
      (fun arr => "struct<" ++ String.intercalate ", " arr ++ ">") <$>
        parseObjectEntries (optEntries (data.get "properties")) := by
  rw [parseSqlSchemaFromObject.eq_def, h]
  rfl

theorem parse_decimal {data props : Json} (mapping : Option Json)
    (h : data.getStr "type" = some "decimal") (h2 : data.get "properties" = some props) :
    parseSqlSchemaFromObject data mapping =
      .ok ("decimal(" ++ jsNumberAsString (props.get "precision") ++ ","
        ++ jsNumberAsString (props.get "scale") ++ ")") := by
  rw [parseSqlSchemaFromObject.eq_def, h]
  simp only [String.reduceEq, reduceIte]
  split
  · rename_i props' heq
    rw [h2] at heq
    injection heq with he
    subst he
    rfl
  · rename_i heq
    rw [h2] at heq
    exact Option.noConfusion heq

theorem parse_map {data props k v : Json} (mapping : Option Json)
    (h : data.getStr "type" = some "map") (h2 : data.get "properties" = some props)
    (hk : props.get "key" = some k) (hv : props.get "value" = some v) :
    parseSqlSchemaFromObject data mapping =
      parseSqlSchemaFromObject k none >>= (fun ks =>
        (fun vs => "map<" ++ ks ++ ", " ++ vs ++ ">") <$> parseSqlSchemaFromObject v none) := by
  rw [parseSqlSchemaFromObject.eq_def, h]
  simp only [String.reduceEq, reduceIte]
  split
  · rename_i props' heq
    rw [h2] at heq
    injection heq with he
    subst he
    split
    · rename_i k' v' heqk heqv
      rw [hk] at heqk
      rw [hv] at heqv
      injection heqk with hek
      injection heqv with hev
      subst hek
      subst hev
      rfl
    · rename_i hnot
      exact (hnot k v hk hv).elim
  · rename_i heq
    rw [h2] at heq
    exact Option.noConfusion heq

theorem parse_unknown {data : Json} {t : String} (mapping : Option Json)
    (h : data.getStr "type" = some t)
    (n1 : t ≠ "null") (n2 : t ≠ "string") (n3 : t ≠ "boolean") (n4 : t ≠ "integer")
    (n5 : t ≠ "number") (n6 : t ≠ "array") (n7 : t ≠ "object") (n8 : t ≠ "float")
    (n9 : t ≠ "date") (n10 : t ≠ "datetime") (n11 : t ≠ "timestamp") (n12 : t ≠ "long")
    (n13 : t ≠ "decimal") (n14 : t ≠ "map") :
    parseSqlSchemaFromObject data mapping = .error (.unknownType t) := by
  rw [parseSqlSchemaFromObject.eq_def, h]
  simp only [n1, n2, n3, n4, n5, n6, n7, n8, n9, n10, n11, n12, n13, n14, if_false, reduceIte]
  rfl

theorem group_nil (mapping : Option Json) : parseGroupEntries [] mapping = .ok [] := by
  rw [parseGroupEntries.eq_def]
  rfl

theorem group_cons_nomap (key : String) (v : Json) (rest : List (String × Json)) :
    parseGroupEntries ((key, v) :: rest) none =
      (parseSqlSchemaFromObject v none) >>= (fun t =>
        (List.cons (validatedFieldName key ++ " " ++ t)) <$> parseGroupEntries rest none) := by
  rw [parseGroupEntries.eq_def]
  rfl

theorem group_cons_miss {m : Json} (key : String) (v : Json) (rest : List (String × Json))
    (h : m.get key = none) :
    parseGroupEntries ((key, v) :: rest) (some m) =
      (parseSqlSchemaFromObject v none) >>= (fun t =>
        (List.cons (validatedFieldName key ++ " " ++ t)) <$> parseGroupEntries rest (some m)) := by
  rw [parseGroupEntries.eq_def]
  dsimp only
  split
  · rename_i repl heq
    rw [h] at heq
    exact Option.noConfusion heq
  · rfl

theorem group_cons_hit {m repl : Json} {newKey : String} {newVal : Json}
    {tl : List (String × Json)} (key : String) (v : Json) (rest : List (String × Json))
    (h : m.get key = some repl) (h2 : repl.entries = (newKey, newVal) :: tl) :
    parseGroupEntries ((key, v) :: rest) (some m) =
      (parseSqlSchemaFromObject newVal none) >>= (fun t =>
        (List.cons (validatedFieldName newKey ++ " " ++ t)) <$> parseGroupEntries rest (some m)) := by
  rw [parseGroupEntries.eq_def]
  dsimp only
  split
  · rename_i repl' heq
    rw [h] at heq
    injection heq with he
    subst he
    split
    · rename_i nk nv tail heq2
      rw [h2] at heq2
      simp only [List.cons.injEq, Prod.mk.injEq] at heq2
      obtain ⟨⟨e1, e2⟩, e3⟩ := heq2
      subst e1
      subst e2
      rfl
    · rename_i heq2
      rw [h2] at heq2
      exact List.noConfusion heq2
  · rename_i heq
    rw [h] at heq
    exact Option.noConfusion heq

theorem obj_nil : parseObjectEntries [] = .ok [] := by
  rw [parseObjectEntries.eq_def]
  rfl

theorem obj_cons (key : String) (v : Json) (rest : List (String × Json)) :
    parseObjectEntries ((key, v) :: rest) =
      parseSqlSchemaFromObject v none >>= (fun t =>
        (List.cons (validatedFieldName key ++ ": " ++ t)) <$> parseObjectEntries rest) := by
  rw [parseObjectEntries.eq_def]
  rfl

/-! ## Concrete schema documents used by the specification's examples -/

/-- The node `{"type": "string"}`. -/
def strNode : Json := .obj [("type", .str "string")]

/-- The node `{"type": "integer"}`. -/
def intNode : Json := .obj [("type", .str "integer")]

/-- The node `{"type": "timestamp"}`. -/
def tsNode : Json := .obj [("type", .str "timestamp")]

/-- The node `{"type": "float"}`. -/
def floatNode : Json := .obj [("type", .str "float")]

/-- The node `{"type": "null"}`. -/
def nullNode : Json := .obj [("type", .str "null")]

/-- The node `{"type": "bogus"}`, an unrecognized keyword. -/
def bogusNode : Json := .obj [("type", .str "bogus")]

/-- The node `{"type": "map", "properties": {"key": {"type":"string"}, "value": {"type":"integer"}}}`. -/
def mapNode : Json := .obj [("type", .str "map"),
  ("properties", .obj [("key", strNode), ("value", intNode)])]

/-- The document `{"id": {"type":"string"}, "ts": {"type":"timestamp"}}`. -/
def idTsDoc : Json := .obj [("id", strNode), ("ts", tsNode)]

/-- The document `{"json_str": {"type":"string"}}`. -/
def jsonStrDoc : Json := .obj [("json_str", strNode)]

/-- The overlay `{"json_str": {"json_map": <map node>}}`. -/
def jsonMapOverlay : Json := .obj [("json_str", .obj [("json_map", mapNode)])]

/-- The document `{"wrapper": {"json_str": {"type":"string"}}}`: a nested
grouping whose direct child key `json_str` equals an overlay key. -/
def nestedOuterDoc : Json := .obj [("wrapper", jsonStrDoc)]

/-- The document `{"other": {"type":"object","properties":{"col1":{"type":"integer"},"col2":{"type":"float"}}}}`. -/
def otherObjDoc : Json := .obj [("other", .obj [("type", .str "object"),
  ("properties", .obj [("col1", intNode), ("col2", floatNode)])])]

/-- The document `{"x": {"type":"null"}}`. -/
def nullDoc : Json := .obj [("x", nullNode)]

/-- The document `{"x": {"type":"bogus"}}`. -/
def bogusDoc : Json := .obj [("x", bogusNode)]

/-- The node `{"type":"decimal","properties":{"precision":5,"scale":2}}`. -/
def decimalNode : Json := .obj [("type", .str "decimal"),
  ("properties", .obj [("precision", .num 5), ("scale", .num 2)])]

/-- A root document that is a bare primitive: `{"type": "string"}`. -/
def primRootDoc : Json := strNode

/-- A root document that is a bare array: `{"type":"array","items":{"type":"integer"}}`. -/
def arrayRootDoc : Json := .obj [("type", .str "array"), ("items", intNode)]

/-- A root document that is a bare map. -/
def mapRootDoc : Json := mapNode

/-! ## Shared evaluation facts and small string lemmas -/

theorem strlen_zero {s : String} (h : s.length = 0) : s = "" := by
  cases s with
  | mk data =>
    simp [String.length] at h
    simp [h]

theorem parse_strNode : parseSqlSchemaFromObject strNode none = .ok "string" :=
  @parse_str strNode none rfl

theorem parse_intNode : parseSqlSchemaFromObject intNode none = .ok "int" :=
  @parse_integer intNode none rfl

theorem parse_tsNode : parseSqlSchemaFromObject tsNode none = .ok "bigint" :=
  @parse_timestamp tsNode none rfl

theorem parse_floatNode : parseSqlSchemaFromObject floatNode none = .ok "float" :=
  @parse_float floatNode none rfl

theorem parse_mapNode : parseSqlSchemaFromObject mapNode none = .ok "map<string, int>" := by
  rw [@parse_map mapNode (.obj [("key", strNode), ("value", intNode)]) strNode intNode none
      rfl rfl rfl rfl, parse_strNode, parse_intNode]
  simp only [exbind_ok, exmap_ok]
  decide

/-! ## Sanitizer claims -/

/-- The sanitizer as the specification words it: empty input gives empty
output; otherwise every character outside `[A-Za-z0-9_-]` is stripped,
and the stripped result is wrapped in backticks exactly when the
lowercase form of the original name is in the reserved-word set. -/
def sanitizeSpec (name : String) : String :=
  if name = "" then ""
  else
    if RESERVED_KEYWORDS.contains (toLowerString name) then
      "`" ++ String.mk (name.data.filter isLegalChar) ++ "`"
    else
      String.mk (name.data.filter isLegalChar)

/-- Every reserved keyword is nonempty, already lowercase, and made of
legal characters only. -/
theorem reserved_canonical :
    ∀ w ∈ RESERVED_KEYWORDS, w ≠ "" ∧ toLowerString w = w ∧ stripIllegal w = w := by
  decide

/-- C7: `validatedFieldName` agrees everywhere with the specification's
description of the sanitizer (empty input passes through; otherwise the
illegal characters are stripped and backticks are added exactly when the
lowercase of the original name is reserved); in particular
`validatedFieldName "table"` is a backtick-quoted `table` and
`validatedFieldName "my_col"` is `my_col` unchanged. -/
theorem C7_theorem :
    (∀ s : String, validatedFieldName s = sanitizeSpec s) ∧
    validatedFieldName "table" = "`table`" ∧
    validatedFieldName "my_col" = "my_col" ∧
    validatedFieldName "" = "" := by
  refine ⟨?_, by decide, by decide, by decide⟩
  intro s
  by_cases h : s = ""
  · subst h
    rfl
  · have hlen : ¬ s.length = 0 := fun h0 => h (strlen_zero h0)
    unfold validatedFieldName sanitizeSpec stripIllegal
    rw [if_neg hlen, if_neg h]

/-- C8: the sanitizer is idempotent on already-legal, non-reserved
names: such a name is returned unchanged, so a second application
changes nothing. -/
theorem C8_theorem (s : String) (hL : s.data.all isLegalChar = true)
    (hR : RESERVED_KEYWORDS.contains (toLowerString s) = false) :
    validatedFieldName (validatedFieldName s) = validatedFieldName s := by
  by_cases h : s = ""
  · subst h
    rfl
  · have hlen : ¬ s.length = 0 := fun h0 => h (strlen_zero h0)
    have hstrip : stripIllegal s = s := by
      unfold stripIllegal
      rw [List.filter_eq_self.mpr (List.all_eq_true.mp hL)]
    have hv : validatedFieldName s = s := by
      unfold validatedFieldName
      rw [if_neg hlen,
        if_neg (show ¬(RESERVED_KEYWORDS.contains (toLowerString s) = true) from by simpa using hR)]
      exact hstrip
    rw [hv, hv]

/-- Witness for C8 at the concrete name `my_col`. -/
theorem C8_witness :
    ("my_col".data.all isLegalChar = true) ∧
    (RESERVED_KEYWORDS.contains (toLowerString "my_col") = false) ∧
    validatedFieldName (validatedFieldName "my_col") = validatedFieldName "my_col" :=
  ⟨by decide, by decide, C8_theorem "my_col" (by decide) (by decide)⟩

/-- C10: when the original name is not reserved (case-insensitively)
but its stripped form is a reserved word, the sanitizer returns the
bare reserved word without backticks — the reserved check sees only the
original, pre-strip string — and a second application then quotes it,
so sanitization is not idempotent on such names. -/
theorem C10_theorem (name : String) (h0 : name ≠ "")
    (h1 : RESERVED_KEYWORDS.contains (toLowerString name) = false)
    (h2 : RESERVED_KEYWORDS.contains (stripIllegal name) = true) :
    validatedFieldName name = stripIllegal name ∧
    validatedFieldName (validatedFieldName name) ≠ validatedFieldName name := by
  have hlen : ¬ name.length = 0 := fun hl => h0 (strlen_zero hl)
  have hv : validatedFieldName name = stripIllegal name := by
    unfold validatedFieldName
    rw [if_neg hlen,
      if_neg (show ¬(RESERVED_KEYWORDS.contains (toLowerString name) = true) from by simpa using h1)]
  have hmem : stripIllegal name ∈ RESERVED_KEYWORDS := by simpa using h2
  obtain ⟨hw0, hwl, hws⟩ := reserved_canonical (stripIllegal name) hmem
  have hwlen : ¬ (stripIllegal name).length = 0 := fun hl => hw0 (strlen_zero hl)
  have hv2 : validatedFieldName (stripIllegal name) = "`" ++ stripIllegal name ++ "`" := by
    unfold validatedFieldName
    rw [if_neg hwlen,
      if_pos (show RESERVED_KEYWORDS.contains (toLowerString (stripIllegal name)) = true from by
        rw [hwl]; exact h2),
      hws]
  refine ⟨hv, ?_⟩
  rw [hv, hv2]
  intro heq
  have hlen2 := congrArg String.length heq
  have hone : ("`" : String).length = 1 := rfl
  rw [String.length_append, String.length_append, hone] at hlen2
  omega

/-- Witness for C10 at the concrete name `ta ble`. -/
theorem C10_witness :
    (("ta ble" : String) ≠ "" ∧
      RESERVED_KEYWORDS.contains (toLowerString "ta ble") = false ∧
      RESERVED_KEYWORDS.contains (stripIllegal "ta ble") = true) ∧
    (validatedFieldName "ta ble" = stripIllegal "ta ble" ∧
      validatedFieldName (validatedFieldName "ta ble") ≠ validatedFieldName "ta ble") :=
  ⟨⟨by decide, by decide, by decide⟩,
    C10_theorem "ta ble" (by decide) (by decide) (by decide)⟩

/-! ## Compiler claims -/

/-- C3 counterexample: a root document that is a bare primitive does
not fail — `readSqlSchemaFromJson` returns the bare type string
`"string"`, and no error of any kind is raised, contradicting the
claimed `InvalidRootType` failure. -/
theorem C3_counterexample :
    readSqlSchemaFromJson primRootDoc none = .ok "string" := by
  rw [readSqlSchemaFromJson, @parse_str primRootDoc none rfl, exbind_ok]
  decide

/-- C3 (amended): for a root document that is a bare primitive, array,
or map, compilation succeeds and returns the bare mapped type string;
the implementation has no root-shape check and no `InvalidRootType`
error. -/
theorem C3_theorem :
    readSqlSchemaFromJson primRootDoc none = .ok "string" ∧
    readSqlSchemaFromJson arrayRootDoc none = .ok "array<int>" ∧
    readSqlSchemaFromJson mapRootDoc none = .ok "map<string, int>" := by
  refine ⟨?_, ?_, ?_⟩
  · rw [readSqlSchemaFromJson, @parse_str primRootDoc none rfl, exbind_ok]
    decide
  · rw [readSqlSchemaFromJson, @parse_array arrayRootDoc intNode none rfl rfl,
      parse_intNode, exmap_ok, exbind_ok]
    decide
  · rw [readSqlSchemaFromJson]
    rw [show parseSqlSchemaFromObject mapRootDoc none = .ok "map<string, int>" from parse_mapNode]
    rw [exbind_ok]
    decide

/-- C4: compiling `{"id": {"type":"string"}, "ts": {"type":"timestamp"}}`
produces the root struct `struct<id string, ts bigint>`, whose outer
`struct<`/`>` wrapper the assembler strips textually, returning exactly
`id string, ts bigint` in declaration order. -/
theorem C4_theorem :
    parseSqlSchemaFromObject idTsDoc none = .ok "struct<id string, ts bigint>" ∧
    readSqlSchemaFromJson idTsDoc none = .ok "id string, ts bigint" := by
  have hroot : parseSqlSchemaFromObject idTsDoc none = .ok "struct<id string, ts bigint>" := by
    rw [@parse_group idTsDoc none rfl rfl,
      show Json.entries idTsDoc = [("id", strNode), ("ts", tsNode)] from rfl,
      group_cons_nomap, parse_strNode, exbind_ok,
      group_cons_nomap, parse_tsNode, exbind_ok, group_nil]
    simp only [exmap_ok]
    decide
  refine ⟨hroot, ?_⟩
  rw [readSqlSchemaFromJson, hroot, exbind_ok]
  decide

/-- C5: an explicit `object` node renders its fields in the colon form
`name: type` inside `struct<...>`, while an implicit grouping renders
fields in the no-colon form `name type`; the example document
`{"other": {object col1/col2}}` therefore compiles to exactly
`other struct<col1: int, col2: float>`. -/
theorem C5_theorem :
    (∀ (key : String) (v : Json) (rest : List (String × Json)),
      parseObjectEntries ((key, v) :: rest) =
        parseSqlSchemaFromObject v none >>= (fun t =>
          (List.cons (validatedFieldName key ++ ": " ++ t)) <$> parseObjectEntries rest)) ∧
    (∀ (key : String) (v : Json) (rest : List (String × Json)),
      parseGroupEntries ((key, v) :: rest) none =
        parseSqlSchemaFromObject v none >>= (fun t =>
          (List.cons (validatedFieldName key ++ " " ++ t)) <$> parseGroupEntries rest none)) ∧
    readSqlSchemaFromJson otherObjDoc none = .ok "other struct<col1: int, col2: float>" := by
  refine ⟨obj_cons, group_cons_nomap, ?_⟩
  have hobj : parseSqlSchemaFromObject (.obj [("type", .str "object"),
      ("properties", .obj [("col1", intNode), ("col2", floatNode)])]) none
      = .ok "struct<col1: int, col2: float>" := by
    rw [@parse_object (.obj [("type", .str "object"),
        ("properties", .obj [("col1", intNode), ("col2", floatNode)])]) none rfl,
      show optEntries (Json.get (.obj [("type", .str "object"),
        ("properties", .obj [("col1", intNode), ("col2", floatNode)])]) "properties")
        = [("col1", intNode), ("col2", floatNode)] from rfl,
      obj_cons, parse_intNode, exbind_ok,
      obj_cons, parse_floatNode, exbind_ok, obj_nil]
    simp only [exmap_ok]
    decide
  have hroot : parseSqlSchemaFromObject otherObjDoc none
      = .ok "struct<other struct<col1: int, col2: float>>" := by
    rw [@parse_group otherObjDoc none rfl rfl,
      show Json.entries otherObjDoc = [("other", .obj [("type", .str "object"),
        ("properties", .obj [("col1", intNode), ("col2", floatNode)])])] from rfl,
      group_cons_nomap, hobj, exbind_ok, group_nil]
    simp only [exmap_ok]
    decide
  rw [readSqlSchemaFromJson, hroot, exbind_ok]
  decide

/-- C6: a `type` of the literal `"null"` fails with the unsupported-type
error, and a `type` outside the recognized keyword set fails with the
unknown-type error; the error propagates out of the single recursive
pass with no partial result, so the two example documents fail exactly
as claimed. -/
theorem C6_theorem :
    (∀ (data : Json) (mapping : Option Json), data.getStr "type" = some "null" →
      parseSqlSchemaFromObject data mapping = .error (.unsupportedType "null")) ∧
    readSqlSchemaFromJson nullDoc none = .error (.unsupportedType "null") ∧
    readSqlSchemaFromJson bogusDoc none = .error (.unknownType "bogus") := by
  refine ⟨fun data mapping h => parse_null mapping h, ?_, ?_⟩
  · rw [readSqlSchemaFromJson, @parse_group nullDoc none rfl rfl,
      show Json.entries nullDoc = [("x", nullNode)] from rfl,
      group_cons_nomap, @parse_null nullNode none rfl, exbind_error, exmap_error, exbind_error]
  · rw [readSqlSchemaFromJson, @parse_group bogusDoc none rfl rfl,
      show Json.entries bogusDoc = [("x", bogusNode)] from rfl,
      group_cons_nomap,
      @parse_unknown bogusNode "bogus" none rfl (by decide) (by decide) (by decide) (by decide)
        (by decide) (by decide) (by decide) (by decide) (by decide) (by decide) (by decide)
        (by decide) (by decide) (by decide),
      exbind_error, exmap_error, exbind_error]

/-- Witness for C6's general conjunct at the node `{"type": "null"}`. -/
theorem C6_witness :
    parseSqlSchemaFromObject nullNode none = .error (.unsupportedType "null") :=
  C6_theorem.1 nullNode none rfl

/-- C9: a `decimal` node with integer `precision` and `scale` renders as
`decimal(<p>,<s>)` using the plain integer notation of the two numbers,
with no fractional part; in particular precision 5 and scale 2 give
exactly `decimal(5,2)`. -/
theorem C9_theorem :
    (∀ (data props : Json) (p q : Int) (mapping : Option Json),
      data.getStr "type" = some "decimal" → data.get "properties" = some props →
      props.get "precision" = some (.num p) → props.get "scale" = some (.num q) →
      parseSqlSchemaFromObject data mapping =
        .ok ("decimal(" ++ toString p ++ "," ++ toString q ++ ")")) ∧
    parseSqlSchemaFromObject decimalNode none = .ok "decimal(5,2)" := by
  constructor
  · intro data props p q mapping h h2 hp hq
    rw [@parse_decimal data props mapping h h2, hp, hq]
    rfl
  · rw [@parse_decimal decimalNode (.obj [("precision", .num 5), ("scale", .num 2)]) none rfl rfl]
    decide

/-- Witness for C9's general conjunct at the concrete decimal node. -/
theorem C9_witness :
    parseSqlSchemaFromObject decimalNode none =
      .ok ("decimal(" ++ toString (5 : Int) ++ "," ++ toString (2 : Int) ++ ")") :=
  C9_theorem.1 decimalNode (.obj [("precision", .num 5), ("scale", .num 2)]) 5 2 none
    rfl rfl rfl rfl

/-! ## Overlay claims -/

/-- C1 counterexample: with an overlay for key `json_str`, compiling a
document whose root field `wrapper` is a nested grouping containing the
direct child key `json_str` leaves that nested child untouched — the
output keeps `json_str string`, not the claimed substitution to
`json_map map<string, int>`. -/
theorem C1_counterexample :
    readSqlSchemaFromJson nestedOuterDoc (some jsonMapOverlay)
      = .ok "wrapper struct<json_str string>" ∧
    ("wrapper struct<json_str string>" : String)
      ≠ "wrapper struct<json_map map<string, int>>" := by
  constructor
  · have hinner : parseSqlSchemaFromObject jsonStrDoc none = .ok "struct<json_str string>" := by
      rw [@parse_group jsonStrDoc none rfl rfl,
        show Json.entries jsonStrDoc = [("json_str", strNode)] from rfl,
        group_cons_nomap, parse_strNode, exbind_ok, group_nil]
      simp only [exmap_ok]
      decide
    have hroot : parseSqlSchemaFromObject nestedOuterDoc (some jsonMapOverlay)
        = .ok "struct<wrapper struct<json_str string>>" := by
      rw [@parse_group nestedOuterDoc (some jsonMapOverlay) rfl rfl,
        show Json.entries nestedOuterDoc = [("wrapper", jsonStrDoc)] from rfl,
        @group_cons_miss jsonMapOverlay "wrapper" jsonStrDoc [] rfl, hinner, exbind_ok, group_nil]
      simp only [exmap_ok]
      decide
    rw [readSqlSchemaFromJson, hroot, exbind_ok]
    decide
  · decide

/-- C1 (amended): overlay lookup is consulted only while the `mapping`
argument is still present — at the root grouping — because every
recursive call into a child subtree passes no overlay; consequently a
top-level field whose key is not in the overlay has its entire subtree
(including any nested grouping whose direct child key equals an overlay
key) compiled with no overlay at all. -/
theorem C1_theorem (k : String) (inner m : Json)
    (h1 : k ≠ "type") (h2 : k ≠ "properties") (h3 : m.get k = none) :
    parseSqlSchemaFromObject (Json.obj [(k, inner)]) (some m) =
      parseSqlSchemaFromObject inner none >>= (fun t =>
        Except.ok ("struct<" ++ (validatedFieldName k ++ " " ++ t) ++ ">")) := by
  have e1 : ("type" == k) = false := beq_eq_false_iff_ne.mpr (Ne.symm h1)
  have e2 : ("properties" == k) = false := beq_eq_false_iff_ne.mpr (Ne.symm h2)
  have hget : Json.get (Json.obj [(k, inner)]) "type" = none := by
    simp [Json.get, List.lookup, e1]
  have hgs : Json.getStr (Json.obj [(k, inner)]) "type" = none := by
    simp [Json.getStr, hget]
  have hprops : Json.get (Json.obj [(k, inner)]) "properties" = none := by
    simp [Json.get, List.lookup, e2]
  rw [@parse_group (Json.obj [(k, inner)]) (some m) hgs hprops,
    show Json.entries (Json.obj [(k, inner)]) = [(k, inner)] from rfl,
    @group_cons_miss m k inner [] h3, group_nil]
  cases hX : parseSqlSchemaFromObject inner none
  · rfl
  · rfl

/-- Witness for C1's amended theorem at the key `wrapper` with the
concrete overlay. -/
theorem C1_witness :
    (("wrapper" : String) ≠ "type" ∧ ("wrapper" : String) ≠ "properties" ∧
      Json.get jsonMapOverlay "wrapper" = none) ∧
    parseSqlSchemaFromObject (Json.obj [("wrapper", strNode)]) (some jsonMapOverlay) =
      parseSqlSchemaFromObject strNode none >>= (fun t =>
        Except.ok ("struct<" ++ (validatedFieldName "wrapper" ++ " " ++ t) ++ ">")) :=
  ⟨⟨by decide, by decide, rfl⟩,
    C1_theorem "wrapper" strNode jsonMapOverlay (by decide) (by decide) rfl⟩

/-- C2: in a grouping, a direct child whose key is in the overlay is
replaced by the overlay entry's sole inner key (sanitized) with the sole
inner value parsed, with no overlay passed further down (so equal keys
deeper in the replaced subtree are unaffected); compiling
`{"json_str": {"type":"string"}}` with the `json_map` overlay yields
exactly `json_map map<string, int>`. -/
theorem C2_theorem :
    (∀ (key : String) (v : Json) (rest : List (String × Json)) (m repl : Json)
        (newKey : String) (newVal : Json) (tl : List (String × Json)),
      m.get key = some repl → repl.entries = (newKey, newVal) :: tl →
      parseGroupEntries ((key, v) :: rest) (some m) =
        (parseSqlSchemaFromObject newVal none) >>= (fun t =>
          (List.cons (validatedFieldName newKey ++ " " ++ t)) <$>
            parseGroupEntries rest (some m))) ∧
    readSqlSchemaFromJson jsonStrDoc (some jsonMapOverlay) = .ok "json_map map<string, int>" := by
  constructor
  · intro key v rest m repl newKey newVal tl h h2
    exact @group_cons_hit m repl newKey newVal tl key v rest h h2
  · have hroot : parseSqlSchemaFromObject jsonStrDoc (some jsonMapOverlay)
        = .ok "struct<json_map map<string, int>>" := by
      rw [@parse_group jsonStrDoc (some jsonMapOverlay) rfl rfl,
        show Json.entries jsonStrDoc = [("json_str", strNode)] from rfl,
        @group_cons_hit jsonMapOverlay (.obj [("json_map", mapNode)]) "json_map" mapNode []
          "json_str" strNode [] rfl rfl,
        parse_mapNode, exbind_ok, group_nil]
      simp only [exmap_ok]
      decide
    rw [readSqlSchemaFromJson, hroot, exbind_ok]
    decide

/-- Witness for C2's general conjunct at the concrete overlay. -/
theorem C2_witness :
    parseGroupEntries [("json_str", Json.null)] (some jsonMapOverlay) =
      (parseSqlSchemaFromObject mapNode none) >>= (fun t =>
        (List.cons (validatedFieldName "json_map" ++ " " ++ t)) <$>
          parseGroupEntries [] (some jsonMapOverlay)) :=
  C2_theorem.1 "json_str" Json.null [] jsonMapOverlay (.obj [("json_map", mapNode)])
    "json_map" mapNode [] rfl rfl
